import Mathlib

/-!
Shallow embedding of the unified multi-backend local-LLM router of
LocalMind-MCP (`mcp/llm/unified_manager.py`, `mcp/llm/client.py`,
`mcp/llm/lmstudio_client.py`, `mcp/llm/types.py`), together with proofs
settling the behavioural claims about model-name resolution, the model
catalog, health snapshots, request dispatch and response translation.

Python strings are modelled as `List Char` (`Str`); Python dicts are
modelled as insertion-ordered association lists with Python assignment
semantics (`dictSet` overwrites in place or appends); network I/O is
modelled by explicit "world" parameters giving each backend call's reply;
raised exceptions are modelled with `Except`.
-/

namespace LocalMind

/-- Python `str`, modelled as its sequence of characters. -/
abbrev Str := List Char

/-- Python `str.lower()`. -/
def lowerStr (s : Str) : Str := s.map Char.toLower

/-- Lookup in an insertion-ordered dict (Python `d.get(k)` / `d[k]`). -/
def dictGet {K V : Type} [DecidableEq K] (d : List (K × V)) (k : K) : Option V :=
  (d.find? (fun p => decide (p.1 = k))).map Prod.snd

/-- Python dict assignment `d[k] = v`: overwrites the existing entry in place
(keeping its position) or appends a new entry at the end. -/
def dictSet {K V : Type} [DecidableEq K] (d : List (K × V)) (k : K) (v : V) :
    List (K × V) :=
  if d.any (fun p => decide (p.1 = k)) then
    d.map (fun p => if p.1 = k then (k, v) else p)
  else
    d ++ [(k, v)]

/-- JSON-like values appearing in request bodies and option maps. -/
inductive JValue : Type
  | str (s : Str)
  | num (q : ℚ)
  | bool (b : Bool)
  | arr (elems : List JValue)
  | obj (fields : List (Str × JValue))

/-- Enum `LLMServiceType` from `unified_manager.py`. -/
inductive LLMServiceType : Type
  | OLLAMA
  | LMStudio
  | AUTO
deriving DecidableEq, Repr

/-- The `.value` string of each `LLMServiceType` member. -/
def serviceValue : LLMServiceType → Str
  | .OLLAMA => "ollama".toList
  | .LMStudio => "lmstudio".toList
  | .AUTO => "auto".toList

/-- Enum `LLMStatus` from `types.py`. -/
inductive LLMStatus : Type
  | AVAILABLE
  | LOADING
  | ERROR
  | OFFLINE
deriving DecidableEq, Repr

/-- Dataclass `ModelInfo` from `types.py` (the free-form `details` map is
modelled as a string-to-string association list; no claim inspects it). -/
structure ModelInfo : Type where
  name : Str
  size : Option Nat := none
  digest : Option Str := none
  modified_at : Option Str := none
  details : Option (List (Str × Str)) := none
  status : LLMStatus := .AVAILABLE
deriving DecidableEq, Repr

/-- Dataclass `LLMResponse` from `types.py`. -/
structure LLMResponse : Type where
  content : Str
  model : Str
  created_at : Str
  done : Bool := true
  total_duration : Option Nat := none
  load_duration : Option Nat := none
  prompt_eval_count : Option Nat := none
  prompt_eval_duration : Option Nat := none
  eval_count : Option Nat := none
  eval_duration : Option Nat := none
  context : Option (List Int) := none
deriving DecidableEq, Repr

/-- Dataclass `ChatMessage` from `types.py`. -/
structure ChatMessage : Type where
  role : Str
  content : Str

/-- Dataclass `GenerateRequest` from `types.py`. -/
structure GenerateRequest : Type where
  model : Str
  prompt : Str
  stream : Bool := false
  context : Option (List Int) := none
  options : Option (List (Str × JValue)) := none

/-- Dataclass `ChatRequest` from `types.py`. -/
structure ChatRequest : Type where
  model : Str
  messages : List ChatMessage
  stream : Bool := false
  options : Option (List (Str × JValue)) := none

/-- The namespacing tag `f"<service>:"` each backend's model names receive
during `_refresh_all_models`. -/
def serviceTag : LLMServiceType → Str
  | .OLLAMA => "ollama:".toList
  | .LMStudio => "lmstudio:".toList
  | .AUTO => "auto:".toList

/-- Python `name.startswith(tag)`. -/
def pyStartsWith (s tag : Str) : Bool := tag.isPrefixOf s

/-- Message of the `MCPLLMError` raised when no service is available
(the spec's `NoBackendAvailable`). -/
def noServiceMsg : Str := "No available LLM service".toList

/-- The loop in `_parse_model_name`'s auto-selection branch:
`for service, available in self._available_services.items():
   if available and service != LLMServiceType.AUTO: return service`. -/
def firstAvailableService : List (LLMServiceType × Bool) → Option LLMServiceType
  | [] => none
  | (svc, avail) :: rest =>
    if avail && decide (svc ≠ .AUTO) then some svc
    else firstAvailableService rest

/-- `UnifiedModelManager._parse_model_name` (`unified_manager.py:130-145`):
strip a recognized backend tag, else fall back to the preferred service,
else auto-select the first available service. -/
def parseModelName (preferred : LLMServiceType)
    (availableServices : List (LLMServiceType × Bool)) (modelName : Str) :
    Except Str (LLMServiceType × Str) :=
  if pyStartsWith modelName (serviceTag .OLLAMA) then
    .ok (.OLLAMA, modelName.drop 7)
  else if pyStartsWith modelName (serviceTag .LMStudio) then
    .ok (.LMStudio, modelName.drop 9)
  else if preferred ≠ .AUTO then
    .ok (preferred, modelName)
  else
    match firstAvailableService availableServices with
    | some svc => .ok (svc, modelName)
    | none => .error noServiceMsg

lemma pyStartsWith_tag_append (tag s : Str) : pyStartsWith (tag ++ s) tag = true := by
  simp [pyStartsWith]

lemma not_pyStartsWith_oll (bare : Str) :
    pyStartsWith (serviceTag .LMStudio ++ bare) (serviceTag .OLLAMA) = false := by
  show List.isPrefixOf _ _ = false
  rw [show serviceTag .LMStudio ++ bare = 'l' :: ("mstudio:".toList ++ bare) from rfl,
    show serviceTag .OLLAMA = 'o' :: "llama:".toList from rfl]
  have h : (('o' : Char) == 'l') = false := by decide
  simp [List.isPrefixOf, h]

lemma firstAvailableService_eq_find (l : List (LLMServiceType × Bool)) :
    firstAvailableService l =
      (l.find? (fun p => p.2 && decide (p.1 ≠ .AUTO))).map Prod.fst := by
  induction l with
  | nil => rfl
  | cons p rest ih =>
    rcases p with ⟨svc, avail⟩
    simp only [firstAvailableService]
    by_cases h : (avail && decide (svc ≠ LLMServiceType.AUTO)) = true
    · rw [if_pos h,
        List.find?_cons_of_pos (p := fun q => q.2 && decide (q.1 ≠ LLMServiceType.AUTO)) rest h]
      rfl
    · rw [if_neg h,
        List.find?_cons_of_neg (p := fun q => q.2 && decide (q.1 ≠ LLMServiceType.AUTO)) rest h,
        ih]

lemma parseModelName_auto (avail : List (LLMServiceType × Bool)) (name : Str)
    (h1 : pyStartsWith name (serviceTag .OLLAMA) = false)
    (h2 : pyStartsWith name (serviceTag .LMStudio) = false) :
    parseModelName .AUTO avail name =
      match firstAvailableService avail with
      | some svc => .ok (svc, name)
      | none => .error noServiceMsg := by
  unfold parseModelName
  rw [if_neg (by rw [h1]; exact Bool.false_ne_true),
    if_neg (by rw [h2]; exact Bool.false_ne_true), if_neg (by decide)]

/-- C1: model-name resolution follows the three-step algorithm:
(1) a name with a recognized `"ollama:"` or `"lmstudio:"` tag resolves to
exactly (that backend, bare remainder) regardless of the preferred service;
(2) a name with no recognized tag and a non-Auto preferred service resolves
to (preferred, name) unchanged; (3) otherwise the first backend in snapshot
order marked available is chosen, and resolution fails with the
no-backend-available error when none is marked available. -/
theorem C1_model_name_resolution :
    (∀ (preferred : LLMServiceType) (avail : List (LLMServiceType × Bool)) (bare : Str),
      parseModelName preferred avail (serviceTag .OLLAMA ++ bare) = .ok (.OLLAMA, bare) ∧
      parseModelName preferred avail (serviceTag .LMStudio ++ bare) = .ok (.LMStudio, bare)) ∧
    (∀ (preferred : LLMServiceType) (avail : List (LLMServiceType × Bool)) (name : Str),
      pyStartsWith name (serviceTag .OLLAMA) = false →
      pyStartsWith name (serviceTag .LMStudio) = false →
      preferred ≠ .AUTO →
      parseModelName preferred avail name = .ok (preferred, name)) ∧
    (∀ (avail : List (LLMServiceType × Bool)) (name : Str),
      pyStartsWith name (serviceTag .OLLAMA) = false →
      pyStartsWith name (serviceTag .LMStudio) = false →
      ((∀ svc b, avail.find? (fun p => p.2 && decide (p.1 ≠ .AUTO)) = some (svc, b) →
         parseModelName .AUTO avail name = .ok (svc, name)) ∧
       (avail.find? (fun p => p.2 && decide (p.1 ≠ .AUTO)) = none →
         parseModelName .AUTO avail name = .error noServiceMsg))) := by
  refine ⟨fun preferred avail bare => ⟨?_, ?_⟩, fun preferred avail name h1 h2 h3 => ?_,
    fun avail name h1 h2 => ⟨fun svc b hf => ?_, fun hf => ?_⟩⟩
  · have hdrop : (serviceTag .OLLAMA ++ bare).drop 7 = bare :=
      List.drop_left' (show (serviceTag .OLLAMA).length = 7 from rfl)
    simp [parseModelName, pyStartsWith_tag_append, hdrop]
  · have hdrop : (serviceTag .LMStudio ++ bare).drop 9 = bare :=
      List.drop_left' (show (serviceTag .LMStudio).length = 9 from rfl)
    simp [parseModelName, pyStartsWith_tag_append, not_pyStartsWith_oll, hdrop]
  · simp [parseModelName, h1, h2, h3]
  · rw [parseModelName_auto avail name h1 h2, firstAvailableService_eq_find, hf]
    rfl
  · rw [parseModelName_auto avail name h1 h2, firstAvailableService_eq_find, hf]
    rfl

/-- Witness for C1 at concrete inputs: a namespaced name resolves by its tag,
a bare name resolves to the preferred service, an Auto bare name picks the
first available backend, and with no available backend resolution fails. -/
theorem C1_model_name_resolution_witness :
    parseModelName .LMStudio [] ("ollama:".toList ++ "llama2".toList) =
      .ok (.OLLAMA, "llama2".toList) ∧
    parseModelName .LMStudio [] "llama2".toList = .ok (.LMStudio, "llama2".toList) ∧
    parseModelName .AUTO [(.OLLAMA, false), (.LMStudio, true)] "llama2".toList =
      .ok (.LMStudio, "llama2".toList) ∧
    parseModelName .AUTO [(.OLLAMA, false), (.LMStudio, false)] "llama2".toList =
      .error noServiceMsg := by
  refine ⟨?_, ?_, ?_, ?_⟩
  · exact (C1_model_name_resolution.1 .LMStudio [] "llama2".toList).1
  · exact C1_model_name_resolution.2.1 .LMStudio [] "llama2".toList
      (by decide) (by decide) (by decide)
  · exact (C1_model_name_resolution.2.2 [(.OLLAMA, false), (.LMStudio, true)]
      "llama2".toList (by decide) (by decide)).1 .LMStudio true (by decide)
  · exact (C1_model_name_resolution.2.2 [(.OLLAMA, false), (.LMStudio, false)]
      "llama2".toList (by decide) (by decide)).2 (by decide)

/-- State of a `UnifiedModelManager` instance (`unified_manager.py:33-42`).
The two backend clients are modelled by whether they have been constructed
and whether each currently holds an open HTTP session. -/
structure ManagerState : Type where
  preferred : LLMServiceType
  ollamaClient : Bool := false
  lmstudioClient : Bool := false
  availableServices : List (LLMServiceType × Bool) := []
  serviceModels : List (LLMServiceType × List ModelInfo) := []
  modelCache : List (Str × Nat) := []
  initialized : Bool := false
  ollamaSessionOpen : Bool := false
  lmstudioSessionOpen : Bool := false
deriving DecidableEq, Repr

/-- The in-place rename `model.name = f"<service>:{model.name}"` applied to
every descriptor during `_refresh_all_models`. -/
def addServiceTag (svc : LLMServiceType) (m : ModelInfo) : ModelInfo :=
  { m with name := serviceTag svc ++ m.name }

/-- `UnifiedModelManager._refresh_all_models` (`unified_manager.py:100-128`):
for each backend currently marked available, fetch its model list (the
`world` argument gives each fetch's outcome), tag every name with the
backend's identifier, and store the list wholesale; a failed fetch stores
the empty list. The `async with` wrapper leaves that client's session
closed afterwards; unavailable backends are untouched. -/
def refreshAllModels (s : ManagerState)
    (ollamaList lmstudioList : Except Str (List ModelInfo)) : ManagerState :=
  let s1 :=
    if (dictGet s.availableServices .OLLAMA).getD false then
      { s with
        serviceModels := dictSet s.serviceModels .OLLAMA
          (match ollamaList with
            | .ok ms => ms.map (addServiceTag .OLLAMA)
            | .error _ => []),
        ollamaSessionOpen := false }
    else s
  if (dictGet s1.availableServices .LMStudio).getD false then
    { s1 with
      serviceModels := dictSet s1.serviceModels .LMStudio
        (match lmstudioList with
          | .ok ms => ms.map (addServiceTag .LMStudio)
          | .error _ => []),
      lmstudioSessionOpen := false }
  else s1

/-- The aggregation loop in `list_models` (`unified_manager.py:155-159`):
`all_models = []; for service_models in self._service_models.values():
all_models.extend(service_models)`. -/
def listModels (s : ManagerState) : List ModelInfo :=
  s.serviceModels.foldl (fun acc p => acc ++ p.2) []

lemma mem_dictSet {K V : Type} [DecidableEq K] {d : List (K × V)} {k : K} {v : V}
    {q : K × V} (hq : q ∈ dictSet d k v) : q ∈ d ∨ q = (k, v) := by
  unfold dictSet at hq
  by_cases h : d.any (fun p => decide (p.1 = k)) = true
  · rw [if_pos h] at hq
    rcases List.mem_map.1 hq with ⟨p, hp, he⟩
    by_cases hpk : p.1 = k
    · right
      rw [← he, if_pos hpk]
    · left
      rw [← he, if_neg hpk]
      exact hp
  · rw [if_neg h] at hq
    rcases List.mem_append.1 hq with h1 | h1
    · exact Or.inl h1
    · right
      simpa using h1

lemma listModels_eq_flatten (s : ManagerState) :
    listModels s = (s.serviceModels.map Prod.snd).flatten := by
  show s.serviceModels.foldl (fun acc p => acc ++ p.2) [] = _
  generalize hacc : ([] : List ModelInfo) = acc
  rw [show (s.serviceModels.map Prod.snd).flatten =
    acc ++ (s.serviceModels.map Prod.snd).flatten by rw [← hacc]; rfl]
  clear hacc
  induction s.serviceModels generalizing acc with
  | nil => simp
  | cons p t ih => simp [List.foldl_cons, ih, List.append_assoc]

/-- Namespacing invariant on a stored descriptor: its name carries a known
backend tag in front of some bare remainder. -/
def taggedName (m : ModelInfo) : Prop :=
  (∃ bare, m.name = serviceTag .OLLAMA ++ bare) ∨
  (∃ bare, m.name = serviceTag .LMStudio ++ bare)

/-- C2 (amended): after a catalog refresh, every descriptor in
`all_models()` has a name of the form `<backend-id>:<bare>` for a known
backend identifier — so the text before the FIRST `:` is a backend id and
the name contains at least one `:` — provided the pre-refresh catalog
already satisfied that invariant (it holds vacuously of the empty initial
catalog). The original claim's "exactly one `:`" fails when a backend
reports a bare name that itself contains `:` (see the counterexample). -/
theorem C2_namespacing_invariant (s : ManagerState)
    (ollamaList lmstudioList : Except Str (List ModelInfo))
    (hs : ∀ q ∈ s.serviceModels, ∀ m ∈ q.2, taggedName m) :
    ∀ m ∈ listModels (refreshAllModels s ollamaList lmstudioList),
      taggedName m ∧ ':' ∈ m.name := by
  have tagged_colon : ∀ m : ModelInfo, taggedName m → ':' ∈ m.name := by
    rintro m (⟨bare, hb⟩ | ⟨bare, hb⟩) <;> rw [hb] <;> simp [serviceTag]
  have map_tagged : ∀ (svc : LLMServiceType) (ms : List ModelInfo),
      svc = .OLLAMA ∨ svc = .LMStudio →
      ∀ m ∈ ms.map (addServiceTag svc), taggedName m := by
    rintro svc ms (rfl | rfl) m hm <;>
      rcases List.mem_map.1 hm with ⟨m0, _, rfl⟩
    · exact Or.inl ⟨m0.name, rfl⟩
    · exact Or.inr ⟨m0.name, rfl⟩
  have inv_step : ∀ q ∈ (refreshAllModels s ollamaList lmstudioList).serviceModels,
      ∀ m ∈ q.2, taggedName m := by
    intro q hq
    unfold refreshAllModels at hq
    dsimp only at hq
    by_cases h1 : (dictGet s.availableServices .OLLAMA).getD false = true
    · rw [if_pos h1] at hq
      by_cases h2 : (dictGet s.availableServices .LMStudio).getD false = true
      · rw [if_pos h2] at hq
        rcases mem_dictSet hq with hq1 | rfl
        · rcases mem_dictSet hq1 with hq2 | rfl
          · exact hs q hq2
          · cases ollamaList with
            | ok ms => exact map_tagged .OLLAMA ms (Or.inl rfl)
            | error e => intro m hm; cases hm
        · cases lmstudioList with
          | ok ms => exact map_tagged .LMStudio ms (Or.inr rfl)
          | error e => intro m hm; cases hm
      · rw [if_neg h2] at hq
        rcases mem_dictSet hq with hq1 | rfl
        · exact hs q hq1
        · cases ollamaList with
          | ok ms => exact map_tagged .OLLAMA ms (Or.inl rfl)
          | error e => intro m hm; cases hm
    · rw [if_neg h1] at hq
      by_cases h2 : (dictGet s.availableServices .LMStudio).getD false = true
      · rw [if_pos h2] at hq
        rcases mem_dictSet hq with hq1 | rfl
        · exact hs q hq1
        · cases lmstudioList with
          | ok ms => exact map_tagged .LMStudio ms (Or.inr rfl)
          | error e => intro m hm; cases hm
      · rw [if_neg h2] at hq
        exact hs q hq
  intro m hm
  rw [listModels_eq_flatten] at hm
  rcases List.mem_flatten.1 hm with ⟨l, hl, hml⟩
  rcases List.mem_map.1 hl with ⟨q, hq, rfl⟩
  have ht := inv_step q hq m hml
  exact ⟨ht, tagged_colon m ht⟩

/-- Witness for C2 at a concrete refresh: starting from the empty catalog
with Ollama available, a refresh that returns one bare model named
`llama2` stores the tagged name `ollama:llama2`, which satisfies the
amended invariant. -/
theorem C2_namespacing_invariant_witness :
    taggedName { name := "ollama:llama2".toList } ∧
      ':' ∈ ({ name := "ollama:llama2".toList } : ModelInfo).name :=
  C2_namespacing_invariant
    { preferred := .AUTO, availableServices := [(.OLLAMA, true), (.LMStudio, false)] }
    (.ok [{ name := "llama2".toList }]) (.ok [])
    (by intro q hq; cases hq)
    { name := "ollama:llama2".toList }
    (by decide)

/-- Counterexample to C2 as stated: Ollama model names routinely contain a
`:`-separated tag (for example `llama2:7b`); refreshing with such a bare
name stores `ollama:llama2:7b`, whose name contains two `:` separators,
not exactly one. -/
theorem C2_exactly_one_separator_counterexample :
    listModels (refreshAllModels
      { preferred := .AUTO, availableServices := [(.OLLAMA, true), (.LMStudio, false)] }
      (.ok [{ name := "llama2:7b".toList }]) (.ok [])) =
      [{ name := "ollama:llama2:7b".toList }] ∧
    List.count ':' "ollama:llama2:7b".toList = 2 := by
  constructor
  · rfl
  · decide

/-- Python loop `for x in l: if pr(x): return x` — used by both
`get_recommended_model` and `get_model_info`. -/
def firstWhere {α : Type} (pr : α → Bool) : List α → Option α
  | [] => none
  | x :: t => if pr x then some x else firstWhere pr t

lemma firstWhere_eq_find {α : Type} (pr : α → Bool) (l : List α) :
    firstWhere pr l = l.find? pr := by
  induction l with
  | nil => rfl
  | cons x t ih =>
    simp only [firstWhere]
    by_cases h : pr x = true
    · rw [if_pos h, List.find?_cons_of_pos t h]
    · rw [if_neg h, List.find?_cons_of_neg t h, ih]

/-- Test `"lmstudio" in model.name and "deepseek" in model.name.lower()`
(`unified_manager.py:290`). -/
def lmstudioDeepseekHit (m : ModelInfo) : Bool :=
  decide (("lmstudio".toList : Str) <:+: m.name) &&
    decide (("deepseek".toList : Str) <:+: lowerStr m.name)

/-- Test `"lmstudio" in model.name` (`unified_manager.py:295`). -/
def lmstudioHit (m : ModelInfo) : Bool :=
  decide (("lmstudio".toList : Str) <:+: m.name)

/-- `UnifiedModelManager.get_recommended_model` (`unified_manager.py:278-299`)
applied to the aggregated `all_models` list. -/
def getRecommendedModel (allModels : List ModelInfo) : Option Str :=
  match allModels with
  | [] => none
  | m0 :: _ =>
    match firstWhere lmstudioDeepseekHit allModels with
    | some m => some m.name
    | none =>
      match firstWhere lmstudioHit allModels with
      | some m => some m.name
      | none => some m0.name

/-- Modelled from the claim's words, for comparison only: tier (b) picks a
model OF the preferred backend, i.e. one namespaced under `lmstudio:`,
rather than any name merely containing the marker as a substring. -/
def recommendClaimPolicy (allModels : List ModelInfo) : Option Str :=
  match allModels with
  | [] => none
  | m0 :: _ =>
    match allModels.find? lmstudioDeepseekHit with
    | some m => some m.name
    | none =>
      match allModels.find? (fun m => pyStartsWith m.name (serviceTag .LMStudio)) with
      | some m => some m.name
      | none => some m0.name

/-- C8 (amended): `recommend()` returns `None` iff the catalog is empty;
otherwise the first matching tier wins, where tier (a) is the first model
whose name contains the `lmstudio` marker and (case-insensitively) the
`deepseek` family substring, tier (b) is the first model whose name
contains the `lmstudio` marker as a substring (NOT necessarily a model of
the LM Studio backend), and tier (c) is the first model of the catalog. -/
theorem C8_recommend_tiers :
    (∀ allModels : List ModelInfo, getRecommendedModel allModels = none ↔ allModels = []) ∧
    (∀ (allModels : List ModelInfo) (m : ModelInfo),
      allModels.find? lmstudioDeepseekHit = some m →
      getRecommendedModel allModels = some m.name) ∧
    (∀ (allModels : List ModelInfo) (m : ModelInfo),
      allModels.find? lmstudioDeepseekHit = none →
      allModels.find? lmstudioHit = some m →
      getRecommendedModel allModels = some m.name) ∧
    (∀ (m0 : ModelInfo) (rest : List ModelInfo),
      (m0 :: rest).find? lmstudioDeepseekHit = none →
      (m0 :: rest).find? lmstudioHit = none →
      getRecommendedModel (m0 :: rest) = some m0.name) := by
  refine ⟨fun allModels => ⟨fun h => ?_, fun h => by rw [h]; rfl⟩,
    fun allModels m h => ?_, fun allModels m h1 h2 => ?_, fun m0 rest h1 h2 => ?_⟩
  · cases allModels with
    | nil => rfl
    | cons m0 rest =>
      exfalso
      revert h
      simp only [getRecommendedModel]
      cases firstWhere lmstudioDeepseekHit (m0 :: rest) with
      | some m => exact fun h => by cases h
      | none =>
        cases firstWhere lmstudioHit (m0 :: rest) with
        | some m => exact fun h => by cases h
        | none => exact fun h => by cases h
  · cases allModels with
    | nil => cases h
    | cons m0 rest =>
      simp only [getRecommendedModel, firstWhere_eq_find, h]
  · cases allModels with
    | nil => cases h2
    | cons m0 rest =>
      simp only [getRecommendedModel, firstWhere_eq_find, h1, h2]
  · simp only [getRecommendedModel, firstWhere_eq_find, h1, h2]

/-- Witness for C8 at concrete catalogs: the empty catalog recommends
nothing; a catalog headed by a DeepSeek LM Studio model recommends it;
one with only a plain LM Studio model recommends that; one with neither
recommends its first entry. -/
theorem C8_recommend_tiers_witness :
    getRecommendedModel [] = none ∧
    getRecommendedModel [{ name := "lmstudio:deepseek-r1".toList }] =
      some ("lmstudio:deepseek-r1".toList) ∧
    getRecommendedModel [{ name := "ollama:a".toList }, { name := "lmstudio:qwen".toList }] =
      some ("lmstudio:qwen".toList) ∧
    getRecommendedModel [{ name := "ollama:a".toList }, { name := "ollama:b".toList }] =
      some ("ollama:a".toList) := by
  refine ⟨(C8_recommend_tiers.1 []).2 rfl, ?_, ?_, ?_⟩
  · exact C8_recommend_tiers.2.1 [{ name := "lmstudio:deepseek-r1".toList }]
      { name := "lmstudio:deepseek-r1".toList } (by decide)
  · exact C8_recommend_tiers.2.2.1
      [{ name := "ollama:a".toList }, { name := "lmstudio:qwen".toList }]
      { name := "lmstudio:qwen".toList } (by decide) (by decide)
  · exact C8_recommend_tiers.2.2.2 { name := "ollama:a".toList }
      [{ name := "ollama:b".toList }] (by decide) (by decide)

/-- Counterexample to C8 as stated: in the catalog
`[ollama:a, ollama:lmstudio-x]` no name matches the DeepSeek tier, no model
belongs to the LM Studio backend, yet the code returns `ollama:lmstudio-x`
(whose name merely CONTAINS the marker) while the claimed policy's tier (b)
("any model of the preferred backend") is empty and its tier (c) would
return the first model `ollama:a`. -/
theorem C8_tier_b_counterexample :
    getRecommendedModel
        [{ name := "ollama:a".toList }, { name := "ollama:lmstudio-x".toList }] =
      some ("ollama:lmstudio-x".toList) ∧
    recommendClaimPolicy
        [{ name := "ollama:a".toList }, { name := "ollama:lmstudio-x".toList }] =
      some ("ollama:a".toList) ∧
    ("ollama:lmstudio-x".toList : Str) ≠ "ollama:a".toList := by
  exact ⟨by decide, by decide, by decide⟩

/-- `UnifiedModelManager.get_model_info` (`unified_manager.py:161-173`):
resolve the name, then return the first stored descriptor of that backend
whose (namespaced) name contains the resolved bare name as a substring
(`if actual_name in model.name`). -/
def getModelInfo (s : ManagerState) (modelName : Str) : Except Str (Option ModelInfo) :=
  match parseModelName s.preferred s.availableServices modelName with
  | .error e => .error e
  | .ok (svc, actualName) =>
    .ok (firstWhere (fun m => decide (actualName <:+: m.name))
      ((dictGet s.serviceModels svc).getD []))

/-- Concrete manager state for the C10 scenario: Ollama available, one
stored descriptor named `ollama:llama2`. -/
def c10state : ManagerState :=
  { preferred := .AUTO,
    availableServices := [(.OLLAMA, true), (.LMStudio, false)],
    serviceModels := [(.OLLAMA, [{ name := "ollama:llama2".toList }])],
    initialized := true }

/-- C10: `get_model_info` resolves the name and returns the FIRST stored
descriptor of the resolved backend whose namespaced name contains the bare
name as a substring (not an exact match); it returns `None` exactly when no
stored name of that backend contains the bare name; and concretely,
requesting the bare name `llama` in a catalog holding `ollama:llama2`
returns the `ollama:llama2` descriptor — a different model than asked for. -/
theorem C10_get_model_info_substring :
    (∀ (s : ManagerState) (modelName : Str) (svc : LLMServiceType) (actual : Str),
      parseModelName s.preferred s.availableServices modelName = .ok (svc, actual) →
      (getModelInfo s modelName =
        .ok (((dictGet s.serviceModels svc).getD []).find?
          (fun m => decide (actual <:+: m.name)))) ∧
      (getModelInfo s modelName = .ok none ↔
        ∀ m ∈ (dictGet s.serviceModels svc).getD [], ¬ actual <:+: m.name) ∧
      (∀ m, getModelInfo s modelName = .ok (some m) →
        m ∈ (dictGet s.serviceModels svc).getD [] ∧ actual <:+: m.name)) ∧
    getModelInfo c10state "llama".toList = .ok (some { name := "ollama:llama2".toList }) ∧
    ("llama".toList : Str) ≠ "ollama:llama2".toList := by
  refine ⟨fun s modelName svc actual hparse => ?_, by rfl, by decide⟩
  have heq : getModelInfo s modelName =
      .ok (((dictGet s.serviceModels svc).getD []).find?
        (fun m => decide (actual <:+: m.name))) := by
    simp only [getModelInfo, hparse, firstWhere_eq_find]
  refine ⟨heq, ?_, fun m hm => ?_⟩
  · rw [heq]
    constructor
    · intro h
      have h2 : (((dictGet s.serviceModels svc).getD []).find?
          (fun m => decide (actual <:+: m.name))) = none := by
        cases hfind : (((dictGet s.serviceModels svc).getD []).find?
            (fun m => decide (actual <:+: m.name))) with
        | none => rfl
        | some m => rw [hfind] at h; cases h
      intro m hmem
      have := List.find?_eq_none.1 h2 m hmem
      simpa using this
    · intro h
      rw [List.find?_eq_none.2 (by intro m hmem; simpa using h m hmem)]
  · rw [heq] at hm
    have hfind : (((dictGet s.serviceModels svc).getD []).find?
        (fun m => decide (actual <:+: m.name))) = some m := by
      cases hf : (((dictGet s.serviceModels svc).getD []).find?
          (fun m => decide (actual <:+: m.name))) with
      | none => rw [hf] at hm; cases hm
      | some m2 =>
        rw [hf] at hm
        cases hm
        rfl
    exact ⟨List.mem_of_find?_eq_some hfind, by simpa using List.find?_some hfind⟩

/-- Witness for C10: in the concrete state above, the bare name `llama`
resolves to Ollama and the lookup equation from the theorem evaluates to
the `ollama:llama2` descriptor. -/
theorem C10_get_model_info_substring_witness :
    getModelInfo c10state "llama".toList =
      .ok (((dictGet c10state.serviceModels .OLLAMA).getD []).find?
        (fun m => decide (("llama".toList : Str) <:+: m.name))) ∧
    ((dictGet c10state.serviceModels .OLLAMA).getD []).find?
        (fun m => decide (("llama".toList : Str) <:+: m.name)) =
      some { name := "ollama:llama2".toList } := by
  refine ⟨(C10_get_model_info_substring.1 c10state ("llama".toList) .OLLAMA
    ("llama".toList) (by rfl)).1, by rfl⟩

/-- The fixed allow-list of sampling options forwarded by
`LMStudioClient.chat` (`lmstudio_client.py:144`). -/
def allowedOptionKeys : List Str :=
  ["temperature".toList, "max_tokens".toList, "top_p".toList,
    "frequency_penalty".toList]

/-- The initial request body built by `LMStudioClient.chat`
(`lmstudio_client.py:130-139`): model, role-mapped messages, stream false,
and default temperature 0.7 / max_tokens -1. -/
def chatBodyBase (req : ChatRequest) : List (Str × JValue) :=
  [("model".toList, JValue.str req.model),
   ("messages".toList, JValue.arr (req.messages.map (fun m =>
     JValue.obj [("role".toList, JValue.str m.role),
       ("content".toList, JValue.str m.content)]))),
   ("stream".toList, JValue.bool false),
   ("temperature".toList, JValue.num (7 / 10)),
   ("max_tokens".toList, JValue.num (-1))]

/-- The option-forwarding loop of `LMStudioClient.chat`
(`lmstudio_client.py:142-145`): each option key on the allow-list is
assigned into the body dict; every other key is skipped. -/
def applyOptions (base : List (Str × JValue)) (opts : List (Str × JValue)) :
    List (Str × JValue) :=
  opts.foldl
    (fun d kv => if kv.1 ∈ allowedOptionKeys then dictSet d kv.1 kv.2 else d) base

/-- The complete body forwarded to `/v1/chat/completions` by
`LMStudioClient.chat` (an absent or empty options map leaves the base
body unchanged, matching Python truthiness of `if request.options:`). -/
def buildLMStudioChatBody (req : ChatRequest) : List (Str × JValue) :=
  match req.options with
  | some opts => applyOptions (chatBodyBase req) opts
  | none => chatBodyBase req

/-- One entry of `choices` in an OpenAI-compatible chat completion reply,
with the fields `LMStudioClient.chat` reads. -/
structure OpenAIChoice : Type where
  message_content : Str
  finish_reason : Option Str := none

/-- The parsed JSON reply of LM Studio's `/v1/chat/completions`, holding
the fields `LMStudioClient.chat` reads (`created` is modelled already
stringified, mirroring `str(response.get("created", ""))`). -/
structure OpenAIChatResponse : Type where
  model : Str
  created : Str := []
  choices : List OpenAIChoice
  usage_prompt_tokens : Option Nat := none
  usage_completion_tokens : Option Nat := none

/-- `LMStudioClient.chat` (`lmstudio_client.py:127-173`): build the body,
post it (the `world` argument gives the backend's reply to the forwarded
body), then translate `choices[0]` into an `LLMResponse`; a transport
error or a reply without choices raises (is re-raised as `MCPLLMError`). -/
def lmstudioChat (req : ChatRequest)
    (world : List (Str × JValue) → Except Str OpenAIChatResponse) :
    Except Str LLMResponse :=
  match world (buildLMStudioChatBody req) with
  | .error e => .error e
  | .ok resp =>
    match resp.choices with
    | [] => .error ("Failed to chat: no choices".toList)
    | choice :: _ =>
      .ok { content := choice.message_content,
            model := resp.model,
            created_at := resp.created,
            done := decide (choice.finish_reason = some ("stop".toList)),
            prompt_eval_count := resp.usage_prompt_tokens,
            eval_count := resp.usage_completion_tokens }

/-- `LMStudioClient.generate` (`lmstudio_client.py:113-125`): re-expressed
as a one-message chat call with role `user` and the prompt as content,
forwarding the same model and options. -/
def lmstudioGenerate (req : GenerateRequest)
    (world : List (Str × JValue) → Except Str OpenAIChatResponse) :
    Except Str LLMResponse :=
  lmstudioChat
    { model := req.model,
      messages := [{ role := "user".toList, content := req.prompt }],
      stream := false,
      options := req.options } world

/-- The body posted to `/api/generate` by `OllamaClient.generate`
(`client.py:150-160`); `context` and `options` are added only when truthy
(Python treats `None` and the empty collection alike here). -/
def buildOllamaGenerateBody (req : GenerateRequest) : List (Str × JValue) :=
  let base : List (Str × JValue) :=
    [("model".toList, JValue.str req.model),
     ("prompt".toList, JValue.str req.prompt),
     ("stream".toList, JValue.bool false)]
  let b1 :=
    match req.context with
    | some (c :: cs) =>
      dictSet base ("context".toList) (JValue.arr ((c :: cs).map (fun i => JValue.num i)))
    | _ => base
  match req.options with
  | some (kv :: kvs) => dictSet b1 ("options".toList) (JValue.obj (kv :: kvs))
  | _ => b1

/-- The parsed JSON reply of Ollama's `/api/generate`, holding the fields
`OllamaClient.generate` reads. -/
structure OllamaGenerateResponse : Type where
  response : Str
  model : Str
  created_at : Str
  done : Option Bool := none
  total_duration : Option Nat := none
  load_duration : Option Nat := none
  prompt_eval_count : Option Nat := none
  prompt_eval_duration : Option Nat := none
  eval_count : Option Nat := none
  eval_duration : Option Nat := none
  context : Option (List Int) := none

/-- `OllamaClient.generate` (`client.py:148-184`): post the body and copy
the reply's fields into an `LLMResponse` unmodified. -/
def ollamaGenerate (req : GenerateRequest)
    (world : List (Str × JValue) → Except Str OllamaGenerateResponse) :
    Except Str LLMResponse :=
  match world (buildOllamaGenerateBody req) with
  | .error e => .error e
  | .ok resp =>
    .ok { content := resp.response,
          model := resp.model,
          created_at := resp.created_at,
          done := resp.done.getD true,
          total_duration := resp.total_duration,
          load_duration := resp.load_duration,
          prompt_eval_count := resp.prompt_eval_count,
          prompt_eval_duration := resp.prompt_eval_duration,
          eval_count := resp.eval_count,
          eval_duration := resp.eval_duration,
          context := resp.context }

lemma find?_map_setkey {K V : Type} [DecidableEq K] (d : List (K × V)) (k k' : K) (v : V)
    (h : k' ≠ k) :
    (d.map (fun p => if p.1 = k then (k, v) else p)).find? (fun q => decide (q.1 = k')) =
      d.find? (fun q => decide (q.1 = k')) := by
  induction d with
  | nil => rfl
  | cons p t ih =>
    simp only [List.map_cons]
    by_cases hp : p.1 = k
    · have hkv : ¬((fun q : K × V => decide (q.1 = k')) (k, v) = true) := by
        simp only [decide_eq_true_eq]
        exact Ne.symm h
      have hpk : ¬((fun q : K × V => decide (q.1 = k')) p = true) := by
        simp only [decide_eq_true_eq]
        rw [hp]
        exact Ne.symm h
      rw [if_pos hp,
        List.find?_cons_of_neg (p := fun q : K × V => decide (q.1 = k')) _ hkv,
        List.find?_cons_of_neg (p := fun q : K × V => decide (q.1 = k')) _ hpk, ih]
    · rw [if_neg hp]
      by_cases hq : ((fun q : K × V => decide (q.1 = k')) p = true)
      · rw [List.find?_cons_of_pos (p := fun q : K × V => decide (q.1 = k')) _ hq,
          List.find?_cons_of_pos (p := fun q : K × V => decide (q.1 = k')) _ hq]
      · rw [List.find?_cons_of_neg (p := fun q : K × V => decide (q.1 = k')) _ hq,
          List.find?_cons_of_neg (p := fun q : K × V => decide (q.1 = k')) _ hq, ih]

lemma dictGet_dictSet_self {K V : Type} [DecidableEq K] (d : List (K × V)) (k : K) (v : V) :
    dictGet (dictSet d k v) k = some v := by
  unfold dictSet
  by_cases hany : d.any (fun q => decide (q.1 = k)) = true
  · rw [if_pos hany]
    simp only [dictGet]
    induction d with
    | nil => cases hany
    | cons p t ih =>
      simp only [List.map_cons]
      by_cases hp : p.1 = k
      · rw [if_pos hp, List.find?_cons_of_pos (p := fun q : K × V => decide (q.1 = k)) _
            (by simp : (fun q : K × V => decide (q.1 = k)) (k, v) = true)]
        rfl
      · rw [if_neg hp, List.find?_cons_of_neg (p := fun q : K × V => decide (q.1 = k)) _
            (by simpa using hp : ¬((fun q : K × V => decide (q.1 = k)) p = true))]
        exact ih (by simpa [List.any_cons, hp] using hany)
  · rw [if_neg hany]
    simp only [dictGet, List.find?_append]
    have hnone : d.find? (fun q => decide (q.1 = k)) = none := by
      rw [List.find?_eq_none]
      intro q hq hdec
      exact hany (List.any_eq_true.2 ⟨q, hq, hdec⟩)
    rw [hnone, Option.none_or, List.find?_cons_of_pos (p := fun q : K × V => decide (q.1 = k)) _
      (by simp : (fun q : K × V => decide (q.1 = k)) (k, v) = true)]
    rfl

lemma dictGet_dictSet_ne {K V : Type} [DecidableEq K] (d : List (K × V)) (k k' : K) (v : V)
    (h : k' ≠ k) : dictGet (dictSet d k v) k' = dictGet d k' := by
  unfold dictSet
  by_cases hany : d.any (fun q => decide (q.1 = k)) = true
  · rw [if_pos hany]
    simp only [dictGet]
    rw [find?_map_setkey d k k' v h]
  · rw [if_neg hany]
    simp only [dictGet, List.find?_append]
    have hone : ([(k, v)].find? (fun q => decide (q.1 = k'))) = none := by
      rw [List.find?_cons_of_neg (p := fun q : K × V => decide (q.1 = k')) _
        (by simpa using Ne.symm h : ¬((fun q : K × V => decide (q.1 = k')) (k, v) = true))]
      rfl
    rw [hone]
    cases hfd : d.find? (fun q => decide (q.1 = k')) <;> rfl

lemma applyOptions_get_of_not_mem_keys (k : Str) :
    ∀ (opts base : List (Str × JValue)), k ∉ opts.map Prod.fst →
      dictGet (applyOptions base opts) k = dictGet base k := by
  intro opts
  induction opts with
  | nil => intro base h; rfl
  | cons kv t ih =>
    intro base h
    have hk : k ≠ kv.1 := by
      intro he
      apply h
      rw [List.map_cons, he]
      exact List.mem_cons_self _ _
    have ht : k ∉ t.map Prod.fst := by
      intro he
      apply h
      rw [List.map_cons]
      exact List.mem_cons_of_mem _ he
    show dictGet (applyOptions
      (if kv.1 ∈ allowedOptionKeys then dictSet base kv.1 kv.2 else base) t) k =
      dictGet base k
    rw [ih (if kv.1 ∈ allowedOptionKeys then dictSet base kv.1 kv.2 else base) ht]
    by_cases hall : kv.1 ∈ allowedOptionKeys
    · rw [if_pos hall, dictGet_dictSet_ne _ _ _ _ hk]
    · rw [if_neg hall]

lemma applyOptions_get_of_not_allowed (k : Str) (h : k ∉ allowedOptionKeys) :
    ∀ (opts base : List (Str × JValue)),
      dictGet (applyOptions base opts) k = dictGet base k := by
  intro opts
  induction opts with
  | nil => intro base; rfl
  | cons kv t ih =>
    intro base
    show dictGet (applyOptions
      (if kv.1 ∈ allowedOptionKeys then dictSet base kv.1 kv.2 else base) t) k =
      dictGet base k
    rw [ih (if kv.1 ∈ allowedOptionKeys then dictSet base kv.1 kv.2 else base)]
    by_cases hall : kv.1 ∈ allowedOptionKeys
    · have hk : k ≠ kv.1 := by
        intro he
        rw [he] at h
        exact h hall
      rw [if_pos hall, dictGet_dictSet_ne _ _ _ _ hk]
    · rw [if_neg hall]

lemma applyOptions_get_of_mem (k : Str) (v : JValue) (hall : k ∈ allowedOptionKeys) :
    ∀ (opts base : List (Str × JValue)),
      (opts.map Prod.fst).Nodup → (k, v) ∈ opts →
      dictGet (applyOptions base opts) k = some v := by
  intro opts
  induction opts with
  | nil =>
    intro base _ hmem
    cases hmem
  | cons kv t ih =>
    intro base hnd hmem
    rcases List.mem_cons.1 hmem with rfl | htail
    · show dictGet (applyOptions
        (if (k, v).1 ∈ allowedOptionKeys then dictSet base (k, v).1 (k, v).2 else base) t) k =
        some v
      have hnd2 : (k :: t.map Prod.fst).Nodup := by
        rw [List.map_cons] at hnd
        exact hnd
      have hknot : k ∉ t.map Prod.fst := (List.nodup_cons.1 hnd2).1
      rw [applyOptions_get_of_not_mem_keys k t
          (if (k, v).1 ∈ allowedOptionKeys then dictSet base (k, v).1 (k, v).2 else base) hknot,
        if_pos hall, dictGet_dictSet_self]
    · show dictGet (applyOptions
        (if kv.1 ∈ allowedOptionKeys then dictSet base kv.1 kv.2 else base) t) k =
        some v
      have hnd2 : (kv.1 :: t.map Prod.fst).Nodup := by
        rw [List.map_cons] at hnd
        exact hnd
      exact ih (if kv.1 ∈ allowedOptionKeys then dictSet base kv.1 kv.2 else base)
        (List.nodup_cons.1 hnd2).2 htail

/-- C7: for every chat request to the LM Studio backend carrying an options
map (with distinct keys, as a Python dict guarantees), the forwarded body
contains each allow-listed option key `{temperature, max_tokens, top_p,
frequency_penalty}` with exactly its given value; every key outside the
allow-list leaves the body at its base value (so a key that is not one of
the base body fields is absent entirely), and nothing raises. -/
theorem C7_option_allowlist (req : ChatRequest) (opts : List (Str × JValue))
    (hopts : req.options = some opts) (hnd : (opts.map Prod.fst).Nodup) :
    (∀ k v, (k, v) ∈ opts → k ∈ allowedOptionKeys →
      dictGet (buildLMStudioChatBody req) k = some v) ∧
    (∀ k, k ∉ allowedOptionKeys →
      dictGet (buildLMStudioChatBody req) k = dictGet (chatBodyBase req) k) ∧
    (∀ k, k ∉ allowedOptionKeys →
      k ≠ "model".toList → k ≠ "messages".toList → k ≠ "stream".toList →
      dictGet (buildLMStudioChatBody req) k = none) := by
  have hbody : buildLMStudioChatBody req = applyOptions (chatBodyBase req) opts := by
    simp only [buildLMStudioChatBody, hopts]
  refine ⟨fun k v hmem hall => ?_, fun k hall => ?_, fun k hall h1 h2 h3 => ?_⟩
  · rw [hbody]
    exact applyOptions_get_of_mem k v hall opts (chatBodyBase req) hnd hmem
  · rw [hbody]
    exact applyOptions_get_of_not_allowed k hall opts (chatBodyBase req)
  · have h4 : k ≠ "temperature".toList := by
      intro he
      rw [he] at hall
      exact hall (by decide)
    have h5 : k ≠ "max_tokens".toList := by
      intro he
      rw [he] at hall
      exact hall (by decide)
    rw [hbody, applyOptions_get_of_not_allowed k hall opts (chatBodyBase req)]
    simp only [chatBodyBase, dictGet, List.find?]
    rw [decide_eq_false (Ne.symm h1), decide_eq_false (Ne.symm h2),
      decide_eq_false (Ne.symm h3), decide_eq_false (Ne.symm h4),
      decide_eq_false (Ne.symm h5)]
    rfl

/-- Concrete chat request for the C7 scenario: options
`{"temperature": 0.2, "unsupported_key": "x"}`. -/
def c7req : ChatRequest :=
  { model := "m".toList,
    messages := [{ role := "user".toList, content := "hi".toList }],
    options := some [("temperature".toList, JValue.num (1 / 5)),
      ("unsupported_key".toList, JValue.str ("x".toList))] }

/-- Witness for C7 at the scenario input: the forwarded body carries
`temperature = 0.2` and no `unsupported_key` entry. -/
theorem C7_option_allowlist_witness :
    dictGet (buildLMStudioChatBody c7req) ("temperature".toList) =
      some (JValue.num (1 / 5)) ∧
    dictGet (buildLMStudioChatBody c7req) ("unsupported_key".toList) = none := by
  have h := C7_option_allowlist c7req
    [("temperature".toList, JValue.num (1 / 5)),
      ("unsupported_key".toList, JValue.str ("x".toList))]
    rfl (by decide)
  exact ⟨h.1 ("temperature".toList) (JValue.num (1 / 5)) (List.Mem.head _) (by decide),
    h.2.2 ("unsupported_key".toList) (by decide) (by decide) (by decide) (by decide)⟩

/-- C5: LM Studio `generate` is exactly `chat` on the one-message request
{role user, content prompt} with the same model and options, and the
resulting content is the backend's completion text unmodified. -/
theorem C5_generate_is_one_message_chat :
    (∀ (req : GenerateRequest)
      (world : List (Str × JValue) → Except Str OpenAIChatResponse),
      lmstudioGenerate req world =
        lmstudioChat
          { model := req.model,
            messages := [{ role := "user".toList, content := req.prompt }],
            stream := false,
            options := req.options } world) ∧
    (∀ (req : GenerateRequest)
      (world : List (Str × JValue) → Except Str OpenAIChatResponse)
      (resp : OpenAIChatResponse) (choice : OpenAIChoice) (rest : List OpenAIChoice),
      world (buildLMStudioChatBody
        { model := req.model,
          messages := [{ role := "user".toList, content := req.prompt }],
          stream := false,
          options := req.options }) = .ok resp →
      resp.choices = choice :: rest →
      ∃ r, lmstudioGenerate req world = .ok r ∧ r.content = choice.message_content) := by
  refine ⟨fun req world => rfl, fun req world resp choice rest hw hc => ?_⟩
  simp only [lmstudioGenerate, lmstudioChat, hw, hc]
  exact ⟨_, rfl, rfl⟩

/-- Witness for C5: a concrete generate call with prompt `hi` against a
backend replying `ok` equals the one-message chat call and yields that
completion text unchanged. -/
theorem C5_generate_is_one_message_chat_witness :
    lmstudioGenerate { model := "m".toList, prompt := "hi".toList }
        (fun _ => .ok { model := "m".toList, choices := [{ message_content := "ok".toList }] }) =
      lmstudioChat
        { model := "m".toList,
          messages := [{ role := "user".toList, content := "hi".toList }],
          stream := false,
          options := none }
        (fun _ => .ok { model := "m".toList, choices := [{ message_content := "ok".toList }] }) ∧
    ∃ r, lmstudioGenerate { model := "m".toList, prompt := "hi".toList }
        (fun _ => .ok { model := "m".toList, choices := [{ message_content := "ok".toList }] }) =
      .ok r ∧ r.content = "ok".toList := by
  refine ⟨C5_generate_is_one_message_chat.1
    { model := "m".toList, prompt := "hi".toList }
    (fun _ => .ok { model := "m".toList, choices := [{ message_content := "ok".toList }] }), ?_⟩
  exact C5_generate_is_one_message_chat.2
    { model := "m".toList, prompt := "hi".toList }
    (fun _ => .ok { model := "m".toList, choices := [{ message_content := "ok".toList }] })
    { model := "m".toList, choices := [{ message_content := "ok".toList }] }
    { message_content := "ok".toList } [] rfl rfl

/-- C4 (amended): a successful (non-raising) generate or chat call on
either backend client returns the backend-reported completion text
unmodified and carries no error (failures surface as raised exceptions,
never inside a returned response) — but the content may be EMPTY even on
success, since neither client enforces non-emptiness (see the
counterexample). -/
theorem C4_content_passthrough :
    (∀ (req : ChatRequest)
      (world : List (Str × JValue) → Except Str OpenAIChatResponse)
      (resp : OpenAIChatResponse) (choice : OpenAIChoice) (rest : List OpenAIChoice),
      world (buildLMStudioChatBody req) = .ok resp →
      resp.choices = choice :: rest →
      ∃ r, lmstudioChat req world = .ok r ∧ r.content = choice.message_content) ∧
    (∀ (req : GenerateRequest)
      (world : List (Str × JValue) → Except Str OllamaGenerateResponse)
      (resp : OllamaGenerateResponse),
      world (buildOllamaGenerateBody req) = .ok resp →
      ∃ r, ollamaGenerate req world = .ok r ∧ r.content = resp.response) := by
  constructor
  · intro req world resp choice rest hw hc
    simp only [lmstudioChat, hw, hc]
    exact ⟨_, rfl, rfl⟩
  · intro req world resp hw
    simp only [ollamaGenerate, hw]
    exact ⟨_, rfl, rfl⟩

/-- Concrete LM Studio reply whose completion text is empty. -/
def c4world : List (Str × JValue) → Except Str OpenAIChatResponse :=
  fun _ => .ok
    { model := "m".toList,
      created := "0".toList,
      choices := [{ message_content := [], finish_reason := some ("stop".toList) }] }

/-- Witness for C4 at a concrete successful call: the reply text `ok` is
passed through unmodified on both clients. -/
theorem C4_content_passthrough_witness :
    (∃ r, lmstudioChat
        { model := "m".toList,
          messages := [{ role := "user".toList, content := "hi".toList }] }
        (fun _ => .ok { model := "m".toList, choices := [{ message_content := "ok".toList }] }) =
      .ok r ∧ r.content = "ok".toList) ∧
    (∃ r, ollamaGenerate { model := "m".toList, prompt := "hi".toList }
        (fun _ => .ok { response := "ok".toList, model := "m".toList, created_at := "0".toList }) =
      .ok r ∧ r.content = "ok".toList) := by
  constructor
  · exact C4_content_passthrough.1
      { model := "m".toList,
        messages := [{ role := "user".toList, content := "hi".toList }] }
      (fun _ => .ok { model := "m".toList, choices := [{ message_content := "ok".toList }] })
      { model := "m".toList, choices := [{ message_content := "ok".toList }] }
      { message_content := "ok".toList } [] rfl rfl
  · exact C4_content_passthrough.2 { model := "m".toList, prompt := "hi".toList }
      (fun _ => .ok { response := "ok".toList, model := "m".toList, created_at := "0".toList })
      { response := "ok".toList, model := "m".toList, created_at := "0".toList } rfl

/-- Counterexample to C4 as stated: a status-200 reply whose
`choices[0].message.content` is the empty string makes `chat` return
successfully (no exception raised, so no error present) with empty
content — refuting "success means content-non-empty". -/
theorem C4_empty_content_counterexample :
    lmstudioChat
        { model := "m".toList,
          messages := [{ role := "user".toList, content := "hi".toList }] }
        c4world =
      .ok { content := [], model := "m".toList, created_at := "0".toList, done := true } ∧
    (([] : Str)).isEmpty = true := by
  exact ⟨rfl, rfl⟩

/-- `UnifiedModelManager.get_available_services` (`unified_manager.py:267-276`):
returns the STORED snapshot, keyed by each service's value string, skipping
the `AUTO` member; no probe is performed. -/
def getAvailableServices (s : ManagerState) : List (Str × Bool) :=
  s.availableServices.filterMap (fun p =>
    if p.1 = .AUTO then none else some (serviceValue p.1, p.2))

/-- `UnifiedModelManager._check_service_availability`
(`unified_manager.py:78-98`), run during `initialize`: probe each client's
`health_check` (the probe arguments give each call's outcome; an escaped
exception records `false`) and write the result into the STORED snapshot.
The probe call runs outside any `async with`, so `_ensure_session` leaves
each client's session open afterwards. -/
def checkServiceAvailability (s : ManagerState)
    (probeOllama probeLMStudio : Except Str Bool) : ManagerState :=
  let s1 := { s with
    ollamaSessionOpen := true,
    availableServices := dictSet s.availableServices .OLLAMA
      (match probeOllama with | .ok b => b | .error _ => false) }
  { s1 with
    lmstudioSessionOpen := true,
    availableServices := dictSet s1.availableServices .LMStudio
      (match probeLMStudio with | .ok b => b | .error _ => false) }

/-- `UnifiedModelManager.initialize` (`unified_manager.py:44-76`): construct
both clients, check availability, refresh the catalog, mark initialized;
a second call while initialized is a no-op. -/
def initManager (s : ManagerState) (probeOllama probeLMStudio : Except Str Bool)
    (ollamaList lmstudioList : Except Str (List ModelInfo)) : ManagerState :=
  if s.initialized then s
  else
    let s1 := { s with ollamaClient := true, lmstudioClient := true }
    let s2 := checkServiceAvailability s1 probeOllama probeLMStudio
    let s3 := refreshAllModels s2 ollamaList lmstudioList
    { s3 with initialized := true }

/-- `UnifiedModelManager.health_check` (`unified_manager.py:301-324`): probe
each constructed client freshly under `async with` (closing its session on
exit, exceptions recorded as `false`) and return the resulting map — the
STORED `_available_services` snapshot is NOT written. -/
def healthCheck (s : ManagerState) (probeOllama probeLMStudio : Except Str Bool) :
    ManagerState × List (Str × Bool) :=
  let h1 : List (Str × Bool) :=
    if s.ollamaClient then
      dictSet [] (serviceValue .OLLAMA)
        (match probeOllama with | .ok b => b | .error _ => false)
    else []
  let h2 :=
    if s.lmstudioClient then
      dictSet h1 (serviceValue .LMStudio)
        (match probeLMStudio with | .ok b => b | .error _ => false)
    else h1
  ({ s with
      ollamaSessionOpen := if s.ollamaClient then false else s.ollamaSessionOpen,
      lmstudioSessionOpen := if s.lmstudioClient then false else s.lmstudioSessionOpen },
   h2)

/-- `UnifiedModelManager.cleanup` (`unified_manager.py:326-333`): clear the
catalog, the usage map and the stored health snapshot, and reset the
initialized flag. Nothing else is touched — in particular no client
session is closed. -/
def cleanup (s : ManagerState) : ManagerState :=
  { s with
    serviceModels := [],
    modelCache := [],
    availableServices := [],
    initialized := false }

/-- Message of the `MCPLLMError` raised by the availability gate
(the spec's `BackendUnavailable`). -/
def serviceUnavailableMsg (svc : LLMServiceType) : Str :=
  "Service ".toList ++ serviceValue svc ++ " is not available".toList

/-- Outcome of one routed generate/chat call: the post-call manager state,
the returned or raised result, and which backend client (if any) was
actually dispatched to. -/
structure DispatchOutcome : Type where
  state : ManagerState
  result : Except Str LLMResponse
  dispatched : Option LLMServiceType
deriving Repr

/-- `UnifiedModelManager.generate_text` (`unified_manager.py:175-219`) on an
initialized manager: resolve the name, fail fast if the stored snapshot
does not mark the backend available (before any client call), otherwise
record the last-used timestamp and dispatch the built request to the
resolved backend (`backendGenerate` gives that call's outcome; the
`async with` leaves the client's session closed). -/
def generateText (s : ManagerState) (now : Nat)
    (backendGenerate : LLMServiceType → GenerateRequest → Except Str LLMResponse)
    (modelName prompt : Str) (options : Option (List (Str × JValue))) :
    DispatchOutcome :=
  match parseModelName s.preferred s.availableServices modelName with
  | .error e => ⟨s, .error e, none⟩
  | .ok (svc, actualName) =>
    if (dictGet s.availableServices svc).getD false = false then
      ⟨s, .error (serviceUnavailableMsg svc), none⟩
    else
      let s1 := { s with modelCache := dictSet s.modelCache modelName now }
      let req : GenerateRequest :=
        { model := actualName, prompt := prompt, options := options }
      match svc with
      | .OLLAMA =>
        ⟨{ s1 with ollamaSessionOpen := false }, backendGenerate .OLLAMA req, some .OLLAMA⟩
      | .LMStudio =>
        ⟨{ s1 with lmstudioSessionOpen := false }, backendGenerate .LMStudio req, some .LMStudio⟩
      | .AUTO => ⟨s1, .error ("Unsupported service type".toList), none⟩

/-- `UnifiedModelManager.chat` (`unified_manager.py:221-265`) on an
initialized manager: identical resolution, availability gate, bookkeeping
and dispatch pattern as `generateText`, with a message list. -/
def chatCall (s : ManagerState) (now : Nat)
    (backendChat : LLMServiceType → ChatRequest → Except Str LLMResponse)
    (modelName : Str) (messages : List ChatMessage)
    (options : Option (List (Str × JValue))) : DispatchOutcome :=
  match parseModelName s.preferred s.availableServices modelName with
  | .error e => ⟨s, .error e, none⟩
  | .ok (svc, actualName) =>
    if (dictGet s.availableServices svc).getD false = false then
      ⟨s, .error (serviceUnavailableMsg svc), none⟩
    else
      let s1 := { s with modelCache := dictSet s.modelCache modelName now }
      let req : ChatRequest :=
        { model := actualName, messages := messages, options := options }
      match svc with
      | .OLLAMA =>
        ⟨{ s1 with ollamaSessionOpen := false }, backendChat .OLLAMA req, some .OLLAMA⟩
      | .LMStudio =>
        ⟨{ s1 with lmstudioSessionOpen := false }, backendChat .LMStudio req, some .LMStudio⟩
      | .AUTO => ⟨s1, .error ("Unsupported service type".toList), none⟩

lemma firstAvailableService_ne_auto {l : List (LLMServiceType × Bool)}
    {svc : LLMServiceType} (h : firstAvailableService l = some svc) :
    svc ≠ .AUTO := by
  induction l with
  | nil => cases h
  | cons p rest ih =>
    rcases p with ⟨s0, av⟩
    by_cases hc : (av && decide (s0 ≠ LLMServiceType.AUTO)) = true
    · rw [firstAvailableService, if_pos hc] at h
      cases h
      exact of_decide_eq_true (Bool.and_elim_right hc)
    · rw [firstAvailableService, if_neg hc] at h
      exact ih h

lemma parseModelName_ne_auto {preferred : LLMServiceType}
    {avail : List (LLMServiceType × Bool)} {modelName actual : Str}
    {svc : LLMServiceType}
    (h : parseModelName preferred avail modelName = .ok (svc, actual)) :
    svc ≠ .AUTO := by
  unfold parseModelName at h
  by_cases h1 : pyStartsWith modelName (serviceTag .OLLAMA) = true
  · rw [if_pos h1] at h
    cases h
    decide
  · rw [if_neg h1] at h
    by_cases h2 : pyStartsWith modelName (serviceTag .LMStudio) = true
    · rw [if_pos h2] at h
      cases h
      decide
    · rw [if_neg h2] at h
      by_cases h3 : preferred ≠ LLMServiceType.AUTO
      · rw [if_pos h3] at h
        cases h
        exact h3
      · rw [if_neg h3] at h
        cases hf : firstAvailableService avail with
        | none => rw [hf] at h; cases h
        | some svc2 =>
          rw [hf] at h
          cases h
          exact firstAvailableService_ne_auto hf

/-- C3 (amended): the Router's `health_check()` probes freshly and returns
the probe result WITHOUT writing the stored snapshot, so the snapshot (and
hence `get_available_services()`) is unchanged by it; and no generate/chat
call — failed or not — ever changes the stored snapshot. The stored
snapshot is written only by the initialization-time availability check
(and cleared by `cleanup`), so a `get_available_services()` following
`health_check()` returns the OLD snapshot, not the fresh probe map (see
the counterexample). -/
theorem C3_health_snapshot_frame :
    ∀ (s : ManagerState) (probeOllama probeLMStudio : Except Str Bool) (now : Nat)
      (bg : LLMServiceType → GenerateRequest → Except Str LLMResponse)
      (bc : LLMServiceType → ChatRequest → Except Str LLMResponse)
      (modelName prompt : Str) (messages : List ChatMessage)
      (options : Option (List (Str × JValue))),
      (healthCheck s probeOllama probeLMStudio).1.availableServices =
        s.availableServices ∧
      getAvailableServices (healthCheck s probeOllama probeLMStudio).1 =
        getAvailableServices s ∧
      (generateText s now bg modelName prompt options).state.availableServices =
        s.availableServices ∧
      (chatCall s now bc modelName messages options).state.availableServices =
        s.availableServices := by
  intro s probeOllama probeLMStudio now bg bc modelName prompt messages options
  refine ⟨rfl, rfl, ?_, ?_⟩
  · cases hp : parseModelName s.preferred s.availableServices modelName with
    | error e => simp [generateText, hp]
    | ok pr =>
      rcases pr with ⟨svc, actual⟩
      simp only [generateText, hp]
      by_cases hav : (dictGet s.availableServices svc).getD false = false
      · rw [if_pos hav]
      · rw [if_neg hav]
        cases svc <;> rfl
  · cases hp : parseModelName s.preferred s.availableServices modelName with
    | error e => simp [chatCall, hp]
    | ok pr =>
      rcases pr with ⟨svc, actual⟩
      simp only [chatCall, hp]
      by_cases hav : (dictGet s.availableServices svc).getD false = false
      · rw [if_pos hav]
      · rw [if_neg hav]
        cases svc <;> rfl

/-- Initialized manager whose stored snapshot marks both backends
available. -/
def c3state : ManagerState :=
  { preferred := .AUTO,
    ollamaClient := true,
    lmstudioClient := true,
    availableServices := [(.OLLAMA, true), (.LMStudio, true)],
    initialized := true }

/-- Counterexample to C3 as stated: after Ollama goes down, the Router's
`health_check()` returns the fresh map {ollama: false, lmstudio: true},
but a subsequent `get_available_services()` still returns the stale stored
snapshot {ollama: true, lmstudio: true} — `health_check()` never writes
the stored snapshot, refuting "a subsequent get_available_services()
returns m". -/
theorem C3_stale_snapshot_counterexample :
    (healthCheck c3state (.ok false) (.ok true)).2 =
      [("ollama".toList, false), ("lmstudio".toList, true)] ∧
    getAvailableServices (healthCheck c3state (.ok false) (.ok true)).1 =
      [("ollama".toList, true), ("lmstudio".toList, true)] ∧
    (healthCheck c3state (.ok false) (.ok true)).2 ≠
      getAvailableServices (healthCheck c3state (.ok false) (.ok true)).1 := by
  exact ⟨rfl, rfl, by decide⟩

/-- C6: on an initialized manager, a generate or chat call whose resolved
backend is not marked available in the stored snapshot fails with the
backend-unavailable error BEFORE any dispatch (no backend client is
invoked and no timestamp is recorded — the state is untouched); otherwise
it records the model's last-used timestamp in the usage map and dispatches
the built request to exactly that backend. -/
theorem C6_availability_gate :
    ∀ (s : ManagerState) (now : Nat)
      (bg : LLMServiceType → GenerateRequest → Except Str LLMResponse)
      (bc : LLMServiceType → ChatRequest → Except Str LLMResponse)
      (modelName prompt : Str) (messages : List ChatMessage)
      (options : Option (List (Str × JValue)))
      (svc : LLMServiceType) (actual : Str),
      parseModelName s.preferred s.availableServices modelName = .ok (svc, actual) →
      ((dictGet s.availableServices svc).getD false = false →
        generateText s now bg modelName prompt options =
          ⟨s, .error (serviceUnavailableMsg svc), none⟩ ∧
        chatCall s now bc modelName messages options =
          ⟨s, .error (serviceUnavailableMsg svc), none⟩) ∧
      ((dictGet s.availableServices svc).getD false = true →
        (generateText s now bg modelName prompt options).dispatched = some svc ∧
        (generateText s now bg modelName prompt options).result =
          bg svc { model := actual, prompt := prompt, options := options } ∧
        (generateText s now bg modelName prompt options).state.modelCache =
          dictSet s.modelCache modelName now ∧
        (chatCall s now bc modelName messages options).dispatched = some svc ∧
        (chatCall s now bc modelName messages options).result =
          bc svc { model := actual, messages := messages, options := options } ∧
        (chatCall s now bc modelName messages options).state.modelCache =
          dictSet s.modelCache modelName now) := by
  intro s now bg bc modelName prompt messages options svc actual hparse
  constructor
  · intro hav
    constructor
    · simp only [generateText, hparse]
      rw [if_pos hav]
    · simp only [chatCall, hparse]
      rw [if_pos hav]
  · intro hav
    have hsvc := parseModelName_ne_auto hparse
    cases svc with
    | OLLAMA =>
      refine ⟨?_, ?_, ?_, ?_, ?_, ?_⟩ <;>
        simp [generateText, chatCall, hparse, hav]
    | LMStudio =>
      refine ⟨?_, ?_, ?_, ?_, ?_, ?_⟩ <;>
        simp [generateText, chatCall, hparse, hav]
    | AUTO => exact absurd rfl hsvc

/-- Backend generate stub returning a fixed reply, for the C6 witness. -/
def c6bg : LLMServiceType → GenerateRequest → Except Str LLMResponse :=
  fun _ _ => .ok { content := "ok".toList, model := "m".toList, created_at := "0".toList }

/-- Backend chat stub returning a fixed reply, for the C6 witness. -/
def c6bc : LLMServiceType → ChatRequest → Except Str LLMResponse :=
  fun _ _ => .ok { content := "ok".toList, model := "m".toList, created_at := "0".toList }

/-- Initialized manager for the C6 witness: Ollama available, LM Studio
down in the stored snapshot. -/
def c6state : ManagerState :=
  { preferred := .AUTO,
    ollamaClient := true,
    lmstudioClient := true,
    availableServices := [(.OLLAMA, true), (.LMStudio, false)],
    initialized := true }

/-- Witness for C6 on a concrete initialized state (Ollama available,
LM Studio down): a call routed to LM Studio fails fast with the
backend-unavailable error and an untouched state, while a call routed to
Ollama dispatches there and records the timestamp. -/
theorem C6_availability_gate_witness :
    generateText c6state 5 c6bg ("lmstudio:x".toList) ("hi".toList) none =
      ⟨c6state, .error (serviceUnavailableMsg .LMStudio), none⟩ ∧
    (generateText c6state 5 c6bg ("ollama:llama2".toList) ("hi".toList) none).dispatched =
      some .OLLAMA ∧
    (generateText c6state 5 c6bg ("ollama:llama2".toList) ("hi".toList) none).state.modelCache =
      dictSet c6state.modelCache ("ollama:llama2".toList) 5 := by
  have hdown := (C6_availability_gate c6state 5 c6bg c6bc ("lmstudio:x".toList)
    ("hi".toList) [] none .LMStudio ("x".toList) rfl).1 rfl
  have hup := (C6_availability_gate c6state 5 c6bg c6bc ("ollama:llama2".toList)
    ("hi".toList) [] none .OLLAMA ("llama2".toList) rfl).2 rfl
  exact ⟨hdown.1, hup.1, hup.2.2.1⟩

/-- C9 (amended): `cleanup()` clears the catalog, the usage map and the
stored health snapshot and resets the router to uninitialized; it is total
(never raises), leaves everything else — in particular the backend
clients' sessions — untouched, and is idempotent, so calling it twice in a
row (from ANY state, including one where `initialize()` never completed)
is safe and a no-op the second time. It does NOT close client sessions
(see the counterexample). -/
theorem C9_cleanup_behaviour :
    ∀ s : ManagerState,
      (cleanup s).serviceModels = [] ∧
      (cleanup s).modelCache = [] ∧
      (cleanup s).availableServices = [] ∧
      (cleanup s).initialized = false ∧
      (cleanup s).ollamaSessionOpen = s.ollamaSessionOpen ∧
      (cleanup s).lmstudioSessionOpen = s.lmstudioSessionOpen ∧
      (cleanup s).ollamaClient = s.ollamaClient ∧
      (cleanup s).lmstudioClient = s.lmstudioClient ∧
      cleanup (cleanup s) = cleanup s :=
  fun s => ⟨rfl, rfl, rfl, rfl, rfl, rfl, rfl, rfl, rfl⟩

/-- Manager state right after an `initialize()` run in which both probes
reported the backends down: the probes opened both client sessions and the
catalog refresh (skipping unavailable backends) never closed them. -/
def c9state : ManagerState :=
  initManager { preferred := .AUTO } (.ok false) (.ok false) (.ok []) (.ok [])

/-- Counterexample to C9 as stated: after this `initialize()`, both client
sessions are open; `cleanup()` resets the router but leaves both sessions
open — refuting "cleanup() closes all backend client sessions". -/
theorem C9_session_not_closed_counterexample :
    c9state.ollamaSessionOpen = true ∧
    c9state.lmstudioSessionOpen = true ∧
    (cleanup c9state).ollamaSessionOpen = true ∧
    (cleanup c9state).lmstudioSessionOpen = true ∧
    (cleanup c9state).initialized = false ∧
    cleanup (cleanup c9state) = cleanup c9state := by
  exact ⟨rfl, rfl, rfl, rfl, rfl, rfl⟩

end LocalMind
